import Mathlib

/-!
# Verification of the rax-ai-sdk client (`src/client.ts`)

Shallow embedding of the SDK's core: the retry/backoff request executor
(`RaxAI.request`), the streaming response decoder (`RaxAI.chatStream`), the
error class (`RaxAIError`) and the constructor.  JSON values are modelled by
an inductive type; the environment's JSON codec (`JSON.parse`) is modelled by
an executable recursive-descent function and, where a property holds for any
codec, taken as a parameter.  Network interaction is modelled by the sequence
of outcomes the `fetch` calls would produce; each embedded operation returns,
besides its result, the observable trace the claims talk about (number of
HTTP calls issued, backoff delays slept).
-/

/-- JSON values, as produced by the environment's JSON codec.  Numbers are
modelled as integers: the SDK never computes with numeric payloads, it only
carries them, and no verified property involves fractional values. -/
inductive Json where
  | null
  | bool (b : Bool)
  | num (n : Int)
  | str (s : String)
  | arr (elems : List Json)
  | obj (fields : List (String × Json))

/-- JS truthiness of a JSON value, used to model the `||` fallbacks and the
`if (content)` guard in the source. -/
def jsTruthy : Json → Bool
  | .null => false
  | .bool b => b
  | .num n => n != 0
  | .str s => s != ""
  | .arr _ => true
  | .obj _ => true

/-- JS string coercion of a JSON value.  Only strings ever reach a coercion
site in the verified claims; for the remaining constructors the value shown
is the JS coercion of the simplest representative (`String([])` is empty,
nested array contents are not rendered). -/
def jsToStr : Json → String
  | .null => "null"
  | .bool true => "true"
  | .bool false => "false"
  | .num n => toString n
  | .str s => s
  | .arr _ => ""
  | .obj _ => "[object Object]"

/-- Optional-chained field access `x?.k`: a field lookup on an object,
`undefined` (here `none`) on every other value. -/
def getField : Json → String → Option Json
  | .obj fields, k => fields.lookup k
  | _, _ => none

/-- The `RaxAIError` class (client.ts 363-378): message, HTTP status, type
classification and optional machine-readable code. -/
structure RaxAIErr where
  message : String
  status : Nat
  type : String
  code : Option Json

/-- The `RaxAIError` constructor (client.ts 371-378):
`message = error?.error?.message || 'Unknown error occurred'`,
`type = error?.error?.type || 'unknown_error'`, `code = error?.error?.code`. -/
def mkRaxAIError (error : Json) (status : Nat) : RaxAIErr :=
  { message :=
      match (getField error "error").bind (getField · "message") with
      | some v => if jsTruthy v then jsToStr v else "Unknown error occurred"
      | none => "Unknown error occurred"
    status := status
    type :=
      match (getField error "error").bind (getField · "type") with
      | some v => if jsTruthy v then jsToStr v else "unknown_error"
      | none => "unknown_error"
    code := (getField error "error").bind (getField · "code") }

/-- `RaxAIError.isRateLimited` (client.ts 396-398). -/
def RaxAIErr.isRateLimited (e : RaxAIErr) : Bool :=
  e.status == 429 || e.type == "rate_limit_exceeded"

/-- `response.ok` of the Fetch API: status in the 2xx range. -/
def statusOk (status : Nat) : Bool :=
  200 ≤ status && status < 300

/-- What one `fetch` attempt of `request` produces, as seen by the code:
either a response arrived, carrying a status and the result of
`response.json()` (`.error msg` when the body is not valid JSON, in which
case `response.json()` rejects with `msg`), or the transport failed and
`fetch` rejected with an error carrying a `name` and a `message`
(`name = "AbortError"` for the timeout abort). -/
inductive AttemptOutcome where
  | response (status : Nat) (jsonBody : Except String Json)
  | transport (name : String) (msg : String)

/-- Terminal outcome of `request`: the decoded payload, a thrown
`RaxAIError`, or a thrown plain `Error` with its message. -/
inductive RequestResult where
  | success (payload : Json)
  | apiError (e : RaxAIErr)
  | failure (msg : String)

/-- Observable behaviour of one `request` run: its outcome, how many HTTP
calls (`fetch` invocations) it issued, and the sleep durations (ms) it
performed between attempts, in order. -/
structure RequestTrace where
  result : RequestResult
  calls : Nat
  delays : List Nat

/-- Body of the retry loop `for (let attempt = 0; attempt < 3; attempt++)`
(client.ts 267-340), one recursive step per iteration.  `fuel` is the number
of iterations the loop bound still allows (3 at the top-level call, the
`fuel = 0` case is the fall-through at line 339); `attempt` is the loop
index; `outcomes attempt` is what the attempt's `fetch` produces.  Each
iteration issues one call; a retry sleeps `1000 * Math.pow(2, attempt)` ms.
The `RaxAIError` thrown for a non-ok status is rethrown unchanged by the
`catch` block (line 316-318), so it is returned directly here. -/
def requestLoop (timeout : Nat) (outcomes : Nat → AttemptOutcome) :
    Nat → Nat → RequestTrace
  | 0, _ => { result := .failure "Request failed after 3 attempts", calls := 0, delays := [] }
  | fuel + 1, attempt =>
    match outcomes attempt with
    | .response status jsonBody =>
      match jsonBody with
      | .ok result =>
        if !statusOk status then
          if 400 ≤ status && status < 500 then
            { result := .apiError (mkRaxAIError result status), calls := 1, delays := [] }
          else if attempt < 2 then
            let rest := requestLoop timeout outcomes fuel (attempt + 1)
            { result := rest.result, calls := rest.calls + 1
              delays := 1000 * 2 ^ attempt :: rest.delays }
          else
            { result := .apiError (mkRaxAIError result status), calls := 1, delays := [] }
        else
          { result := .success result, calls := 1, delays := [] }
      | .error msg =>
        -- `response.json()` rejected (line 293): control reaches the catch
        -- block with a non-RaxAIError, non-abort error and is retried.
        if attempt < 2 then
          let rest := requestLoop timeout outcomes fuel (attempt + 1)
          { result := rest.result, calls := rest.calls + 1
            delays := 1000 * 2 ^ attempt :: rest.delays }
        else
          { result := .failure ("Network error: " ++ msg), calls := 1, delays := [] }
    | .transport name msg =>
      if name = "AbortError" then
        if attempt < 2 then
          let rest := requestLoop timeout outcomes fuel (attempt + 1)
          { result := rest.result, calls := rest.calls + 1
            delays := 1000 * 2 ^ attempt :: rest.delays }
        else
          { result := .failure ("Request timeout after " ++ toString timeout ++ "ms")
            calls := 1, delays := [] }
      else
        if attempt < 2 then
          let rest := requestLoop timeout outcomes fuel (attempt + 1)
          { result := rest.result, calls := rest.calls + 1
            delays := 1000 * 2 ^ attempt :: rest.delays }
        else
          { result := .failure ("Network error: " ++ msg), calls := 1, delays := [] }

/-- `RaxAI.request` (client.ts 267-340): the retry loop started at
`attempt = 0` with its bound of 3 iterations. -/
def request (timeout : Nat) (outcomes : Nat → AttemptOutcome) : RequestTrace :=
  requestLoop timeout outcomes 3 0

/-- A JSON error body as the server sends it for a given type. -/
def errBody (msg ty : String) : Json :=
  .obj [("error", .obj [("message", .str msg), ("type", .str ty)])]

example :
    request 30000 (fun _ => .response 500 (.ok (errBody "boom" "server_error"))) =
      { result := .apiError { message := "boom", status := 500, type := "server_error", code := none }
        calls := 3, delays := [1000, 2000] } := by
  rfl

example :
    request 30000 (fun _ => .response 429 (.ok (errBody "slow down" "rate_limit_exceeded"))) =
      { result := .apiError { message := "slow down", status := 429, type := "rate_limit_exceeded", code := none }
        calls := 1, delays := [] } := by
  rfl

example :
    request 30000 (fun _ => .response 200 (.error "Unexpected token")) =
      { result := .failure "Network error: Unexpected token", calls := 3, delays := [1000, 2000] } := by
  rfl

example :
    request 30000 (fun _ => .response 200 (.ok (.str "hi"))) =
      { result := .success (.str "hi"), calls := 1, delays := [] } := by
  rfl

/-- A chunk yielded by `chatStream` (`StreamChunk` in types.ts). -/
structure StreamChunk where
  content : String
  done : Bool

/-- The two lines `const lines = buffer.split('\n'); buffer = lines.pop() || ''`
(client.ts 140-141) as one operation on the buffered text: the complete
(newline-terminated) lines, and the trailing partial line kept as the new
buffer.  Text is modelled as its character sequence; `TextDecoder` with
`stream: true` reassembles UTF-8 sequences split across reads, so reads are
character-level. -/
def splitLines : List Char → List (List Char) × List Char
  | [] => ([], [])
  | c :: rest =>
    if c = '\n' then ([] :: (splitLines rest).1, (splitLines rest).2)
    else
      match splitLines rest with
      | (l :: ls, buf) => ((c :: l) :: ls, buf)
      | ([], buf) => ([], c :: buf)

/-- The event-data marker `'data: '` tested by `line.startsWith('data: ')`. -/
def dataHead : List Char := "data: ".toList

/-- The sentinel payload `'[DONE]'`. -/
def doneToken : List Char := "[DONE]".toList

/-- `parsed.choices?.[0]?.delta?.content` (client.ts 152). -/
def deltaContent (parsed : Json) : Option Json := do
  let choices ← getField parsed "choices"
  let first ← match choices with
    | .arr (x :: _) => some x
    | _ => none
  let delta ← getField first "delta"
  getField delta "content"

/-- The chunks yielded for one `data:` payload (client.ts 150-158): parse the
payload (a parse failure is silently skipped), extract the delta content with
the `|| ''` fallback, and yield it only when truthy (`if (content)`). -/
def lineYield (parse : List Char → Option Json) (data : List Char) : List StreamChunk :=
  match parse data with
  | some parsed =>
    match deltaContent parsed with
    | some v => if jsTruthy v then [{ content := jsToStr v, done := false }] else []
    | none => []
  | none => []

/-- The `for (const line of lines)` loop over the complete lines of one read
(client.ts 143-160).  Returns the chunks yielded and whether the generator
executed `return` (the `[DONE]` sentinel), which abandons all further input. -/
def processLines (parse : List Char → Option Json) :
    List (List Char) → List StreamChunk × Bool
  | [] => ([], false)
  | line :: rest =>
    if line.take 6 = dataHead then
      if line.drop 6 = doneToken then ([{ content := "", done := true }], true)
      else
        let next := processLines parse rest
        (lineYield parse (line.drop 6) ++ next.1, next.2)
    else processLines parse rest

/-- The read loop `while (true) { ... reader.read() ... }` of `chatStream`
(client.ts 131-161) over the decoded text of the successive reads: each read
is appended to the line buffer, the complete lines are processed, and the
trailing partial line is retained.  When the transport reports end of stream
(`done`), a final `{content: '', done: true}` chunk is yielded and the
remaining partial line is discarded; when `[DONE]` was seen, the generator
has already returned. -/
def decodeReads (parse : List Char → Option Json) (buffer : List Char) :
    List (List Char) → List StreamChunk
  | [] => [{ content := "", done := true }]
  | r :: rs =>
    let split := splitLines (buffer ++ r)
    let processed := processLines parse split.1
    if processed.2 then processed.1
    else processed.1 ++ decodeReads parse split.2 rs

/-- What the single `fetch` of `chatStream` produces: the response status,
the result of `response.json()` if it were read (`.error` when the body is
not valid JSON), and the sequence of reads the body reader delivers. -/
structure FetchStreamResponse where
  status : Nat
  jsonBody : Except String Json
  reads : List (List Char)

/-- The fallback body installed by `.catch(() => ({error: {message: 'Unknown
error', type: 'server_error'}}))` at client.ts 119. -/
def unknownErrorJson : Json :=
  .obj [("error", .obj [("message", .str "Unknown error"), ("type", .str "server_error")])]

/-- `RaxAI.chatStream` after its `fetch` resolved (client.ts 118-161): a
non-ok status decodes the body (with the unknown-error fallback) and throws a
`RaxAIError` before anything is yielded; an ok status yields the chunks
decoded from the reads.  The thrown `RaxAIError` passes through the `catch`
wrapper at line 164 unchanged. -/
def chatStream (parse : List Char → Option Json) (resp : FetchStreamResponse) :
    Except RaxAIErr (List StreamChunk) :=
  if !statusOk resp.status then
    let errorData :=
      match resp.jsonBody with
      | .ok j => j
      | .error _ => unknownErrorJson
    .error (mkRaxAIError errorData resp.status)
  else
    .ok (decodeReads parse [] resp.reads)

/-- The caller-visible effect of `chatStream` on its argument (client.ts 96):
`const streamRequest = { ...request, stream: true }` builds a fresh object by
spreading the caller's request and overriding `stream`; no later statement of
`chatStream` mentions `request`.  The first component is the caller's object
after the call, the second the object serialized onto the wire. -/
def chatStreamSetup {Req : Type} (setStream : Req → Req) (request : Req) : Req × Req :=
  (request, setStream request)

/-- Whitespace skipping of the JSON grammar. -/
def skipWs : List Char → List Char
  | [] => []
  | c :: rest =>
    if c = ' ' || c = '\n' || c = '\t' || c = '\r' then skipWs rest
    else c :: rest

/-- Body of a JSON string literal after the opening quote: the decoded
characters and the input following the closing quote.  The common escapes are
supported; `\uXXXX` escapes are not (no verified input uses them). -/
def parseStringBody : List Char → Option (List Char × List Char)
  | [] => none
  | '\\' :: e :: rest => do
    let c ← match e with
      | '"' => some '"'
      | '\\' => some '\\'
      | '/' => some '/'
      | 'n' => some '\n'
      | 't' => some '\t'
      | 'r' => some '\r'
      | _ => none
    let (s, rem) ← parseStringBody rest
    some (c :: s, rem)
  | '"' :: rest => some ([], rest)
  | c :: rest => do
    let (s, rem) ← parseStringBody rest
    some (c :: s, rem)

/-- Digit run of a JSON number, accumulating its value. -/
def parseDigitsAcc : Nat → List Char → Nat × List Char
  | acc, [] => (acc, [])
  | acc, c :: rest =>
    if c.isDigit then parseDigitsAcc (acc * 10 + (c.toNat - 48)) rest
    else (acc, c :: rest)

/-- Integer JSON numbers (a fractional part makes the surrounding parse
fail, which is sound for a codec model: no verified input carries one). -/
def parseNumber : List Char → Option (Json × List Char)
  | '-' :: c :: rest =>
    if c.isDigit then
      let p := parseDigitsAcc (c.toNat - 48) rest
      some (.num (-(p.1 : Int)), p.2)
    else none
  | c :: rest =>
    if c.isDigit then
      let p := parseDigitsAcc (c.toNat - 48) rest
      some (.num (p.1 : Int), p.2)
    else none
  | [] => none

mutual

/-- Recursive-descent JSON value parser; the `fuel` bounds the recursion
depth and is in excess at every use (one unit is spent per grammar level,
each of which consumes at least one input character). -/
def parseJsonAux : Nat → List Char → Option (Json × List Char)
  | 0, _ => none
  | fuel + 1, input =>
    match skipWs input with
    | [] => none
    | '"' :: rest =>
      match parseStringBody rest with
      | some (cs, rem) => some (.str (String.mk cs), rem)
      | none => none
    | '\x7b' :: rest =>
      match skipWs rest with
      | '\x7d' :: rem => some (.obj [], rem)
      | rest2 =>
        match parseMembers fuel rest2 with
        | some (fields, rem) => some (.obj fields, rem)
        | none => none
    | '[' :: rest =>
      match skipWs rest with
      | ']' :: rem => some (.arr [], rem)
      | rest2 =>
        match parseElems fuel rest2 with
        | some (elems, rem) => some (.arr elems, rem)
        | none => none
    | 't' :: 'r' :: 'u' :: 'e' :: rest => some (.bool true, rest)
    | 'f' :: 'a' :: 'l' :: 's' :: 'e' :: rest => some (.bool false, rest)
    | 'n' :: 'u' :: 'l' :: 'l' :: rest => some (.null, rest)
    | other => parseNumber other

/-- Members of a JSON object, after the opening brace of a non-empty
object. -/
def parseMembers : Nat → List Char → Option (List (String × Json) × List Char)
  | 0, _ => none
  | fuel + 1, input =>
    match skipWs input with
    | '"' :: rest =>
      match parseStringBody rest with
      | some (key, rest2) =>
        match skipWs rest2 with
        | ':' :: rest3 =>
          match parseJsonAux fuel rest3 with
          | some (value, rest4) =>
            match skipWs rest4 with
            | ',' :: rest5 =>
              match parseMembers fuel rest5 with
              | some (fields, rem) => some ((String.mk key, value) :: fields, rem)
              | none => none
            | '\x7d' :: rem => some ([(String.mk key, value)], rem)
            | _ => none
          | none => none
        | _ => none
      | none => none
    | _ => none

/-- Elements of a JSON array, after the opening bracket of a non-empty
array. -/
def parseElems : Nat → List Char → Option (List Json × List Char)
  | 0, _ => none
  | fuel + 1, input =>
    match parseJsonAux fuel input with
    | some (value, rest) =>
      match skipWs rest with
      | ',' :: rest2 =>
        match parseElems fuel rest2 with
        | some (elems, rem) => some (value :: elems, rem)
        | none => none
      | ']' :: rem => some ([value], rem)
      | _ => none
    | none => none

end

/-- The JSON codec `JSON.parse`: a full parse of the input, rejecting
trailing garbage. -/
def jsonParse (s : List Char) : Option Json :=
  match parseJsonAux (s.length + 1) s with
  | some (j, rem) => if skipWs rem = [] then some j else none
  | none => none

example :
    jsonParse "\x7b\"choices\":[\x7b\"delta\":\x7b\"content\":\"He\"\x7d\x7d]\x7d".toList =
      some (.obj [("choices", .arr [.obj [("delta", .obj [("content", .str "He")])]])]) := by
  rfl

example : jsonParse "[1, -2, true, null, \"a\"]".toList =
    some (.arr [.num 1, .num (-2), .bool true, .null, .str "a"]) := by
  rfl

example : jsonParse "\x7b\"a\":1".toList = none := by rfl

/-- `RaxAIConfig` (types.ts): optional fields model properties that may be
absent; an absent or empty `apiKey`, like an absent or empty `baseURL` and an
absent or zero `timeout`, is falsy in the source's checks. -/
structure RaxAIConfig where
  apiKey : Option String
  baseURL : Option String
  timeout : Option Nat

/-- The fields of a constructed `RaxAI` client (client.ts 30-32). -/
structure RaxAI where
  apiKey : String
  baseURL : String
  timeout : Nat

/-- `.replace(/\/$/, '')` (client.ts 47): strip one trailing slash. -/
def stripTrailingSlash (s : String) : String :=
  match s.data.getLast? with
  | some '/' => String.mk s.data.dropLast
  | _ => s

/-- The `RaxAI` constructor (client.ts 42-49): `if (!config.apiKey) throw`,
then `baseURL = (config.baseURL || 'https://ai.raxcore.dev/api').replace(/\/$/, '')`
and `timeout = config.timeout || 30000`. -/
def mkRaxAI (config : RaxAIConfig) : Except String RaxAI :=
  let keyFalsy := match config.apiKey with
    | none => true
    | some k => k = ""
  if keyFalsy then
    .error "API key is required. Get one at https://ai.raxcore.dev"
  else
    .ok
      { apiKey := (config.apiKey.getD "")
        baseURL := stripTrailingSlash
          (match config.baseURL with
           | some u => if u = "" then "https://ai.raxcore.dev/api" else u
           | none => "https://ai.raxcore.dev/api")
        timeout :=
          match config.timeout with
          | some t => if t = 0 then 30000 else t
          | none => 30000 }

/-- `ChatMessage` (types.ts). -/
structure ChatMessage where
  role : String
  content : String

/-- `ChatRequest` (types.ts).  The numeric generation parameters are carried
opaquely (the SDK never computes with them), so an integer carrier is
adequate. -/
structure ChatRequest where
  model : String
  messages : List ChatMessage
  max_tokens : Option Nat
  temperature : Option Int
  top_p : Option Int
  stream : Option Bool
  user : Option String

/-- The override performed by the spread at client.ts 96 on the copy. -/
def setStreamTrue (r : ChatRequest) : ChatRequest :=
  { r with stream := some true }

example :
    mkRaxAI { apiKey := some "k", baseURL := some "https://x.example/", timeout := none } =
      .ok { apiKey := "k", baseURL := "https://x.example", timeout := 30000 } := by
  rfl

example :
    mkRaxAI { apiKey := some "", baseURL := none, timeout := some 5 } =
      .error "API key is required. Get one at https://ai.raxcore.dev" := by
  rfl

def wireLine1 : List Char :=
  "data: \x7b\"choices\":[\x7b\"delta\":\x7b\"content\":\"He\"\x7d\x7d]\x7d\n".toList

def wireLine2 : List Char :=
  "data: \x7b\"choices\":[\x7b\"delta\":\x7b\"content\":\"llo\"\x7d\x7d]\x7d\n".toList

def wireLine3 : List Char := "data: [DONE]\n".toList

example :
    decodeReads jsonParse [] [wireLine1 ++ wireLine2 ++ wireLine3] =
      [{ content := "He", done := false }, { content := "llo", done := false },
       { content := "", done := true }] := by
  rfl

theorem splitLines_append (x y : List Char) :
    splitLines (x ++ y) =
      ((splitLines x).1 ++ (splitLines ((splitLines x).2 ++ y)).1,
       (splitLines ((splitLines x).2 ++ y)).2) := by
  induction x with
  | nil => simp [splitLines]
  | cons c x' ih =>
    by_cases hc : c = '\n'
    · subst hc
      simp [splitLines, ih]
    · rcases hx : splitLines x' with ⟨ls, buf⟩
      rw [hx] at ih
      simp only at ih
      cases ls with
      | nil =>
        rcases hq : splitLines (buf ++ y) with ⟨q1, q2⟩
        rw [hq] at ih
        simp only [List.nil_append] at ih
        simp only [List.cons_append, splitLines, if_neg hc, hx, hq, List.append_eq]
        rw [ih]
        cases q1 <;> simp
      | cons l ls' =>
        rcases hq : splitLines (buf ++ y) with ⟨q1, q2⟩
        rw [hq] at ih
        simp only [List.cons_append] at ih
        simp only [List.cons_append, splitLines, if_neg hc, hx, hq, List.append_eq]
        rw [ih]

theorem processLines_append (parse : List Char → Option Json)
    (l1 l2 : List (List Char)) :
    processLines parse (l1 ++ l2) =
      if (processLines parse l1).2 then processLines parse l1
      else ((processLines parse l1).1 ++ (processLines parse l2).1,
            (processLines parse l2).2) := by
  induction l1 with
  | nil => simp [processLines]
  | cons line rest ih =>
    by_cases h1 : line.take 6 = dataHead
    · by_cases h2 : line.drop 6 = doneToken
      · simp [processLines, h1, h2]
      · simp only [List.cons_append, List.append_eq, processLines, if_pos h1, if_neg h2]
        rw [ih]
        by_cases hs : (processLines parse rest).2 <;> simp [hs, List.append_assoc]
    · simp only [List.cons_append, processLines, if_neg h1]
      exact ih

theorem decodeReads_cons_cons (parse : List Char → Option Json)
    (buf a b : List Char) (rs : List (List Char)) :
    decodeReads parse buf (a :: b :: rs) = decodeReads parse buf ((a ++ b) :: rs) := by
  have hassoc : buf ++ (a ++ b) = (buf ++ a) ++ b := (List.append_assoc buf a b).symm
  simp only [decodeReads, hassoc, splitLines_append (buf ++ a) b, processLines_append]
  by_cases hs1 : (processLines parse (splitLines (buf ++ a)).1).2 <;>
    by_cases hs2 :
      (processLines parse (splitLines ((splitLines (buf ++ a)).2 ++ b)).1).2 <;>
    simp [decodeReads, hs1, hs2, List.append_assoc]

theorem decodeReads_join_cons (parse : List Char → Option Json)
    (buf : List Char) (rs : List (List Char)) (a : List Char) :
    decodeReads parse buf (a :: rs) = decodeReads parse buf [a ++ rs.flatten] := by
  induction rs generalizing a with
  | nil => simp
  | cons b rs' ih =>
    rw [decodeReads_cons_cons, ih (a ++ b), List.flatten_cons, List.append_assoc]

theorem delays_step (attempt : Nat) (d : List Nat)
    (hd : d = (List.range d.length).map (fun i => 1000 * 2 ^ (attempt + 1 + i))) :
    1000 * 2 ^ attempt :: d =
      (List.range (d.length + 1)).map (fun i => 1000 * 2 ^ (attempt + i)) := by
  rw [List.range_succ_eq_map, List.map_cons, List.map_map]
  have hf : ((fun i => 1000 * 2 ^ (attempt + i)) ∘ Nat.succ) =
      fun i => 1000 * 2 ^ (attempt + 1 + i) := by
    funext i
    simp only [Function.comp]
    congr 2
    omega
  rw [hf, ← hd]
  simp

theorem requestLoop_delays (timeout : Nat) (outcomes : Nat → AttemptOutcome) :
    ∀ fuel attempt,
      (requestLoop timeout outcomes fuel attempt).delays =
        (List.range (requestLoop timeout outcomes fuel attempt).delays.length).map
          (fun i => 1000 * 2 ^ (attempt + i)) := by
  intro fuel
  induction fuel with
  | zero => intro attempt; simp [requestLoop]
  | succ fuel ih =>
    intro attempt
    have step : ∀ d : List Nat,
        d = (requestLoop timeout outcomes fuel (attempt + 1)).delays →
        1000 * 2 ^ attempt :: d =
          (List.range (1000 * 2 ^ attempt :: d).length).map
            (fun i => 1000 * 2 ^ (attempt + i)) := by
      intro d hdef
      have hd := ih (attempt + 1)
      rw [← hdef] at hd
      simpa using delays_step attempt d hd
    cases houtcome : outcomes attempt with
    | response status jsonBody =>
      cases jsonBody with
      | ok result =>
        simp only [requestLoop, houtcome]
        split
        · split
          · simp
          · split
            · exact step _ rfl
            · simp
        · simp
      | error msg =>
        simp only [requestLoop, houtcome]
        split
        · exact step _ rfl
        · simp
    | transport name msg =>
      simp only [requestLoop, houtcome]
      split
      · split
        · exact step _ rfl
        · simp
      · split
        · exact step _ rfl
        · simp

theorem requestLoop_calls (timeout : Nat) (outcomes : Nat → AttemptOutcome) :
    ∀ fuel attempt, 2 - attempt < fuel →
      (requestLoop timeout outcomes fuel attempt).calls =
        (requestLoop timeout outcomes fuel attempt).delays.length + 1 := by
  intro fuel
  induction fuel with
  | zero => intro attempt h; omega
  | succ fuel ih =>
    intro attempt hfuel
    cases houtcome : outcomes attempt with
    | response status jsonBody =>
      cases jsonBody with
      | ok result =>
        simp only [requestLoop, houtcome]
        split
        · split
          · simp
          · split
            case isTrue hlt => simp [ih (attempt + 1) (by omega)]
            case isFalse => simp
        · simp
      | error msg =>
        simp only [requestLoop, houtcome]
        split
        case isTrue hlt => simp [ih (attempt + 1) (by omega)]
        case isFalse => simp
    | transport name msg =>
      simp only [requestLoop, houtcome]
      split
      · split
        case isTrue hlt => simp [ih (attempt + 1) (by omega)]
        case isFalse => simp
      · split
        case isTrue hlt => simp [ih (attempt + 1) (by omega)]
        case isFalse => simp

/-- C1: the claim says that when the server returns 5xx on every attempt the
executor issues `retries+1` calls with the retry count defaulting to 3 (so 4
calls).  The code makes exactly 3 calls (loop bound `attempt < 3` at
client.ts 270, retry guard `attempt < 2` at 304) and sleeps only twice,
contradicting its own doc comment ("3 automatic retries", "1s, 2s, 4s
delays", client.ts 262-263) and the README: evaluated on an all-500 outcome
sequence, the trace shows 3 calls and delays [1000, 2000] ms. -/
theorem c1_all_5xx_three_calls :
    request 30000
        (fun _ => .response 500 (.ok (errBody "Internal server error" "server_error"))) =
      { result := .apiError
          { message := "Internal server error", status := 500
            type := "server_error", code := none }
        calls := 3, delays := [1000, 2000] } := by
  rfl

/-- C2: the claim says a 429 response is retried like a server error with an
optional retry-after floor.  In the code 429 falls into the 4xx
immediate-throw branch (client.ts 299-301) and no retry-after handling
exists, contradicting the README's retry table: on an all-429 outcome
sequence the executor makes exactly one call, sleeps never, and throws the
`RaxAIError` at once (which classifies as rate-limited for the caller). -/
theorem c2_429_single_call_no_retry :
    request 30000
        (fun _ => .response 429 (.ok (errBody "Rate limit exceeded" "rate_limit_exceeded"))) =
      { result := .apiError
          { message := "Rate limit exceeded", status := 429
            type := "rate_limit_exceeded", code := none }
        calls := 1, delays := [] } ∧
    (mkRaxAIError (errBody "Rate limit exceeded" "rate_limit_exceeded") 429).isRateLimited = true :=
  ⟨rfl, rfl⟩

/-- C3 (counterexample): as stated the claim quantifies over every 4xx
response, but a 400 response whose body is not valid JSON makes
`response.json()` at client.ts 293 reject before the status is ever checked,
so the run is retried by the generic catch: 3 calls, two backoff sleeps, and
a plain network failure instead of an immediate `ApiError`. -/
theorem c3_counterexample_malformed_4xx_retried :
    request 30000 (fun _ => .response 400 (.error "Unexpected token N in JSON")) =
      { result := .failure "Network error: Unexpected token N in JSON"
        calls := 3, delays := [1000, 2000] } := by
  rfl

/-- C3 (amended): for every 4xx response whose body decodes as JSON, the
executor issues exactly one HTTP call and fails immediately with the
`RaxAIError` built from the decoded body and the status, with no retry and
no backoff sleep. -/
theorem c3_4xx_json_body_single_call (timeout : Nat) (outcomes : Nat → AttemptOutcome)
    (status : Nat) (j : Json) (h4 : 400 ≤ status) (h5 : status < 500)
    (h0 : outcomes 0 = .response status (.ok j)) :
    request timeout outcomes =
      { result := .apiError (mkRaxAIError j status), calls := 1, delays := [] } := by
  have hlt : ¬ status < 300 := by omega
  have hok : statusOk status = false := by simp [statusOk, hlt]
  simp [request, requestLoop, h0, hok, h4, h5]

/-- C3 (witness): the amended theorem evaluated at a 400 response carrying a
well-formed `invalid_request_error` body. -/
theorem c3_4xx_json_body_single_call_witness :
    400 ≤ 400 ∧ 400 < 500 ∧
    request 30000
        (fun _ => .response 400 (.ok (errBody "Invalid request" "invalid_request_error"))) =
      { result := .apiError (mkRaxAIError (errBody "Invalid request" "invalid_request_error") 400)
        calls := 1, delays := [] } :=
  ⟨by decide, by decide,
    c3_4xx_json_body_single_call 30000 _ 400
      (errBody "Invalid request" "invalid_request_error") (by decide) (by decide) rfl⟩

/-- C4: on the wire input consisting of the three newline-terminated lines
`data: {"choices":[{"delta":{"content":"He"}}]}`,
`data: {"choices":[{"delta":{"content":"llo"}}]}` and `data: [DONE]`, the
stream decoder produces exactly the chunk sequence
`[{content:"He",done:false}, {content:"llo",done:false},
{content:"",done:true}]` and nothing else (the `[DONE]` sentinel makes the
generator return, so no further chunk follows). -/
theorem c4_stream_scenario :
    chatStream jsonParse
        { status := 200, jsonBody := .ok .null
          reads := [wireLine1, wireLine2, wireLine3] } =
      .ok [{ content := "He", done := false }, { content := "llo", done := false },
           { content := "", done := true }] := by
  rfl

/-- C5 (counterexample): the claim says a success-status response whose body
is not valid JSON fails with a non-retryable decode error, but the rejection
of `response.json()` (client.ts 293) lands in the generic catch and is
retried: a 200 response with a malformed body produces 3 calls, two backoff
sleeps, and a plain network failure. -/
theorem c5_counterexample_decode_error_retried :
    request 30000 (fun _ => .response 200 (.error "Unexpected end of JSON input")) =
      { result := .failure "Network error: Unexpected end of JSON input"
        calls := 3, delays := [1000, 2000] } := by
  rfl

/-- C5 (amended): a success-status response whose body is not valid JSON is
treated as a transient failure: the decode failure is retried with the same
exponential backoff as a network error, and after the 3 calls the executor
fails with a generic network error carrying the decode failure's message,
not a typed decode error. -/
theorem c5_success_decode_error_is_retried (timeout status : Nat) (msg : String)
    (hok : statusOk status = true) :
    request timeout (fun _ => .response status (.error msg)) =
      { result := .failure ("Network error: " ++ msg)
        calls := 3, delays := [1000, 2000] } := by
  rfl

/-- C5 (witness): the amended theorem evaluated at a 200 response with a
malformed body. -/
theorem c5_success_decode_error_is_retried_witness :
    statusOk 200 = true ∧
    request 30000 (fun _ => .response 200 (.error "Unexpected token")) =
      { result := .failure "Network error: Unexpected token"
        calls := 3, delays := [1000, 2000] } :=
  ⟨by decide, c5_success_decode_error_is_retried 30000 200 "Unexpected token" (by decide)⟩

/-- C6: every backoff sleep performed by the executor is exactly
`baseDelay * 2 ^ attempt` with the 1000 ms base that the code hardwires (the
i-th recorded delay, slept after attempt i, equals `1000 * 2 ^ i`), so the
delays are non-decreasing across attempts; moreover every run performs
exactly one sleep per retried attempt (calls = delays + 1). -/
theorem c6_backoff_delays (timeout : Nat) (outcomes : Nat → AttemptOutcome) :
    (request timeout outcomes).delays =
      (List.range (request timeout outcomes).delays.length).map (fun i => 1000 * 2 ^ i) ∧
    (request timeout outcomes).delays.Chain' (· ≤ ·) ∧
    (request timeout outcomes).calls = (request timeout outcomes).delays.length + 1 := by
  have h1 := requestLoop_delays timeout outcomes 3 0
  simp only [Nat.zero_add] at h1
  simp only [request]
  refine ⟨h1, ?_, requestLoop_calls timeout outcomes 3 0 (by omega)⟩
  rw [h1]
  have hp : ((List.range (requestLoop timeout outcomes 3 0).delays.length).map
      (fun i => 1000 * 2 ^ i)).Pairwise (· ≤ ·) := by
    refine List.Pairwise.map _ ?_ (List.pairwise_lt_range _)
    intro a b hab
    exact Nat.mul_le_mul_left 1000 (Nat.pow_le_pow_right (by norm_num) (Nat.le_of_lt hab))
  exact hp.chain'

/-- C7: a streaming call whose initial response has a non-success status
yields zero chunks and raises, before anything is yielded, the `RaxAIError`
decoded from the response body, carrying the body's type classification and
the response status. -/
theorem c7_stream_error_before_chunks (parse : List Char → Option Json)
    (resp : FetchStreamResponse) (j : Json) (ty : String)
    (hok : statusOk resp.status = false) (hbody : resp.jsonBody = .ok j)
    (hty : (getField j "error").bind (getField · "type") = some (.str ty))
    (hne : ty ≠ "") :
    chatStream parse resp = .error (mkRaxAIError j resp.status) ∧
    (∀ chunks, chatStream parse resp ≠ .ok chunks) ∧
    (mkRaxAIError j resp.status).type = ty ∧
    (mkRaxAIError j resp.status).status = resp.status := by
  have h1 : chatStream parse resp = .error (mkRaxAIError j resp.status) := by
    simp [chatStream, hok, hbody]
  refine ⟨h1, ?_, ?_, rfl⟩
  · intro chunks hc
    rw [h1] at hc
    exact Except.noConfusion hc
  · simp [mkRaxAIError, hty, jsTruthy, jsToStr, hne]

/-- An `authentication_error` body as the server sends it for a 401. -/
def authBody : Json := errBody "Invalid API key" "authentication_error"

/-- A 401 initial response of a streaming call. -/
def authResp : FetchStreamResponse :=
  { status := 401, jsonBody := .ok authBody, reads := [] }

/-- C7 (witness): the theorem evaluated at a 401 response carrying an
`authentication_error` body. -/
theorem c7_stream_error_before_chunks_witness :
    chatStream jsonParse authResp = .error (mkRaxAIError authBody 401) ∧
    (∀ chunks, chatStream jsonParse authResp ≠ .ok chunks) ∧
    (mkRaxAIError authBody 401).type = "authentication_error" ∧
    (mkRaxAIError authBody 401).status = 401 :=
  c7_stream_error_before_chunks jsonParse authResp authBody "authentication_error"
    rfl rfl rfl (by decide)

/-- C8: for every split of the wire text into read buffers, the decoded
chunk sequence equals the one produced when the whole stream arrives in a
single read: partial lines are buffered, never parsed, until their newline
arrives, for any JSON codec. -/
theorem c8_split_invariance (parse : List Char → Option Json)
    (reads : List (List Char)) :
    decodeReads parse [] reads = decodeReads parse [] [reads.flatten] := by
  cases reads with
  | nil => rfl
  | cons a rs => exact decodeReads_join_cons parse [] rs a

/-- C9: construction succeeds exactly when the configured credential is
present and non-empty; a missing or empty `apiKey` makes the constructor
itself throw (the check happens at construction, not on the first call). -/
theorem c9_constructor_key_check (config : RaxAIConfig) :
    (∃ client, mkRaxAI config = .ok client) ↔
      (config.apiKey ≠ none ∧ config.apiKey ≠ some "") := by
  cases hk : config.apiKey with
  | none => simp [mkRaxAI, hk]
  | some k => by_cases hke : k = "" <;> simp [mkRaxAI, hk, hke]

/-- C10: `chatStream` sets the streaming flag on a spread copy of the
caller's request (client.ts 96) and never assigns to the original object:
after the call the caller's request is exactly what it was, while the object
sent on the wire has `stream: true` and every other field unchanged. -/
theorem c10_chatStream_request_unmodified (r : ChatRequest) :
    (chatStreamSetup setStreamTrue r).1 = r ∧
    (chatStreamSetup setStreamTrue r).2.stream = some true ∧
    (chatStreamSetup setStreamTrue r).2.model = r.model ∧
    (chatStreamSetup setStreamTrue r).2.messages = r.messages ∧
    (chatStreamSetup setStreamTrue r).2.max_tokens = r.max_tokens ∧
    (chatStreamSetup setStreamTrue r).2.temperature = r.temperature ∧
    (chatStreamSetup setStreamTrue r).2.top_p = r.top_p ∧
    (chatStreamSetup setStreamTrue r).2.user = r.user :=
  ⟨rfl, rfl, rfl, rfl, rfl, rfl, rfl, rfl⟩
